import Mathlib

/-!
Shallow embedding of the sockjs-cyclone session layer
(src/sockjs/cyclone/session.py and src/sockjs/cyclone/sessioncontainer.py).

Conventions of the embedding:
* Python object mutation becomes explicit state passing: every operation on a
  session returns the updated session plus a list of observable side effects
  (frames handed to transport handlers, stats updates, scheduled reactor
  callbacks, log lines).
* Exceptions are made explicit: operations that can raise in Python return an
  extra Bool which is true when the Python code would raise (the session
  component then reflects exactly the mutations performed before the raise).
* Times (time.time values, expiry durations) are embedded as Int; only
  ordering and addition matter to the code.
* The application connection object (self.conn) is represented by its
  observable calls (connectionMade, on_close effects); whether on_close
  raises is passed in as an explicit Bool parameter, since close catches it.
-/

/-- String constants appearing in the source. -/
def goAwayMsg : String := "Go away!"

def anotherConnMsg : String := "Another connection still open"

def differentIPMsg : String := "Attempted to connect to session from different IP"

def onCloseFailMsg : String := "Failed to call on_close()."

/-- Observable side effects of session and container operations. -/
inductive Effect : Type where
  | sendPack (hid : Nat) (frame : String)
  | sessionClosed (hid : Nat)
  | statsSessOpened (transport : String)
  | statsSessClosed (transport : String)
  | statsPackSent (n : Nat)
  | connectionMade
  | connOnClose
  | scheduleFlush
  | scheduleClose
  | logMsg (s : String)
  deriving DecidableEq, Repr

/-- ConnectionInfo from session.py: snapshot of request provenance. -/
structure ConnectionInfo : Type where
  ip : String
  cookies : List (String × String)
  arguments : List (String × List String)
  deriving DecidableEq, Repr

/-- ConnectionInfo.get_argument -/
def ConnectionInfo.get_argument (ci : ConnectionInfo) (name : String) : Option String :=
  match ci.arguments.lookup name with
  | some (v :: _) => some v
  | _ => none

/-- ConnectionInfo.get_cookie -/
def ConnectionInfo.get_cookie (ci : ConnectionInfo) (name : String) : Option String :=
  ci.cookies.lookup name

/-- A transport handler, per the BaseTransportMixin contract
(src/sockjs/cyclone/transports/base.py): it exposes a transport name,
the request remote IP, cookies and arguments; hid models Python object
identity. -/
structure Handler : Type where
  hid : Nat
  name : String
  remote_ip : String
  cookies : List (String × String)
  arguments : List (String × List String)
  deriving DecidableEq, Repr

/-- BaseTransportMixin.get_conn_info -/
def Handler.get_conn_info (h : Handler) : ConnectionInfo :=
  { ip := h.remote_ip, cookies := h.cookies, arguments := h.arguments }

/-- SESSION_STATE from session.py. -/
inductive SESSION_STATE : Type where
  | CONNECTING
  | OPEN
  | CLOSING
  | CLOSED
  deriving DecidableEq, Repr

/-- Router settings consumed by Session.__init__. -/
structure ServerSettings : Type where
  heartbeat_delay : Int
  immediate_flush : Bool
  verify_ip : Bool
  deriving DecidableEq, Repr

/-- Modelled from the spec: the proto module (sockjs.cyclone.proto) is not
under src/. Per spec section 6, a disconnect frame encodes (code, message)
in the fixed envelope c[<code>,"<message>"]. -/
def proto.disconnect (code : Int) (message : String) : String :=
  "c[" ++ toString code ++ ",\x22" ++ message ++ "\x22]"

/-- The data frame envelope of session.py: the Python format 'a[%s]'. -/
def aFrame (body : String) : String :=
  "a[" ++ body ++ "]"

/-- The log line of Session.set_handler on an IP mismatch. -/
def attachLogMsg (sid ip rip : String) : String :=
  "Attempted to attach to session " ++ sid ++ " (" ++ ip ++
    ") from different IP (" ++ rip ++ ")"

/-- Modelled from the spec: proto.CONNECT, the fixed "open" sentinel frame. -/
def proto.CONNECT : String := "o"

/-- Modelled from the spec: proto.HEARTBEAT, the fixed heartbeat sentinel frame. -/
def proto.HEARTBEAT : String := "h"

/-- The session object: fields of BaseSession, SessionMixin and Session
flattened, as Python builds them on one object.

transport_name is Option String because in Python the attribute exists only
after the first successful BaseSession.set_handler; reading it before that
raises AttributeError (modelled by the error Bool of close).

expiry_date is likewise only assigned by SessionMixin.__init__ when expiry
is not None; the embedding carries an Int (0 when never assigned). No
operation settled here reads expiry_date of a session whose expiry is none:
such sessions are never pushed into the container heap.

heartbeat_timer abstracts the LoopingCall handle to whether a timer is
running. -/
structure Session : Type where
  send_expects_json : Bool
  handler : Option Handler
  state : SESSION_STATE
  conn_info : Option ConnectionInfo
  close_reason : Option (Int × String)
  transport_name : Option String
  session_id : String
  promoted : Option Int
  expiry : Option Int
  expiry_date : Int
  send_queue : String
  heartbeat_timer : Bool
  heartbeat_interval : Int
  immediate_flush : Bool
  pending_flush : Bool
  verify_ip : Bool
  deriving DecidableEq, Repr

/-- Session.__init__ (which runs SessionMixin.__init__ and
BaseSession.__init__); session_id is the caller-supplied id (the random
id generation is outside the model), now is the current time used for the
initial expiry_date. -/
def Session.create (settings : ServerSettings) (session_id : String)
    (expiry : Option Int) (now : Int) : Session :=
  -- Session.__init__ assigns send_expects_json = True first, but then runs
  -- BaseSession.__init__ last, which overwrites it to False: the final
  -- value on a fresh Session object is False.
  { send_expects_json := false
    handler := none
    state := SESSION_STATE.CONNECTING
    conn_info := none
    close_reason := none
    transport_name := none
    session_id := session_id
    promoted := none
    expiry := expiry
    expiry_date := match expiry with
      | some e => now + e
      | none => 0
    send_queue := ""
    heartbeat_timer := false
    heartbeat_interval := settings.heartbeat_delay * 1000
    immediate_flush := settings.immediate_flush
    pending_flush := false
    verify_ip := settings.verify_ip }

/-- BaseSession.is_closed -/
def BaseSession.is_closed (s : Session) : Bool :=
  s.state = SESSION_STATE.CLOSED || s.state = SESSION_STATE.CLOSING

/-- BaseSession.get_close_reason -/
def BaseSession.get_close_reason (s : Session) : Int × String :=
  match s.close_reason with
  | some r => r
  | none => (3000, goAwayMsg)

/-- SessionMixin.promote: mark the entry alive; promoted gets
time() + expiry when expiry is set. -/
def SessionMixin.promote (now : Int) (s : Session) : Session :=
  match s.expiry with
  | some e => { s with promoted := some (now + e) }
  | none => s

/-- SessionMixin.is_alive -/
def SessionMixin.is_alive (now : Int) (s : Session) : Bool :=
  s.expiry_date > now

/-- BaseSession.set_handler. The result Bool is true when the Python code
would raise (handler already attached - the guard in Session.set_handler
prevents that at its only call site). -/
def BaseSession.set_handler (s : Session) (h : Handler) :
    Session × List Effect × Bool :=
  match s.handler with
  | some _ => (s, [], true)
  | none =>
    let s1 := { s with handler := some h, transport_name := some h.name }
    match s.conn_info with
    | none =>
      ({ s1 with conn_info := some (Handler.get_conn_info h) },
       [Effect.statsSessOpened h.name], false)
    | some _ => (s1, [], false)

/-- BaseSession.verify_state: first CONNECTING transition opens the session
and invokes the application connectionMade callback. -/
def BaseSession.verify_state (s : Session) : Session × List Effect :=
  if s.state = SESSION_STATE.CONNECTING then
    ({ s with state := SESSION_STATE.OPEN }, [Effect.connectionMade])
  else
    (s, [])

/-- BaseSession.remove_handler. The Bool is true when the Python code would
raise (removing a handler that is not the attached one); the raise happens
before any mutation. -/
def BaseSession.remove_handler (s : Session) (h : Handler) : Session × Bool :=
  if s.handler = some h then
    ({ s with handler := none }, false)
  else
    (s, true)

/-- BaseSession.close. onCloseRaises tells whether the application on_close
callback raises (the try/except catches it either way). The result Bool is
true when the Python code itself raises: reading self.transport_name for the
stats update raises AttributeError when no set_handler ever succeeded; the
state and close_reason mutations in the finally block have already happened
at that point, and neither the stats update nor handler.session_closed run. -/
def BaseSession.close (onCloseRaises : Bool) (s : Session)
    (code : Int) (message : String) : Session × List Effect × Bool :=
  if s.state = SESSION_STATE.CLOSED then
    (s, [], false)
  else
    let ef1 := Effect.connOnClose ::
      (if onCloseRaises then [Effect.logMsg onCloseFailMsg] else [])
    let s1 := { s with state := SESSION_STATE.CLOSED,
                       close_reason := some (code, message) }
    match s.transport_name with
    | none => (s1, ef1, true)
    | some tn =>
      match s1.handler with
      | some h =>
        (s1, ef1 ++ [Effect.statsSessClosed tn, Effect.sessionClosed h.hid], false)
      | none => (s1, ef1 ++ [Effect.statsSessClosed tn], false)

/-- BaseSession.delayed_close: set CLOSING and schedule close for the next
reactor turn. It does not record a close reason itself. -/
def BaseSession.delayed_close (s : Session) : Session × List Effect :=
  ({ s with state := SESSION_STATE.CLOSING }, [Effect.scheduleClose])

/-- Session.close: when not yet CLOSED and a handler is attached, first send
the disconnect frame, then run BaseSession.close. -/
def Session.close (onCloseRaises : Bool) (s : Session)
    (code : Int) (message : String) : Session × List Effect × Bool :=
  let pre : List Effect :=
    if s.state = SESSION_STATE.CLOSED then []
    else
      match s.handler with
      | some h => [Effect.sendPack h.hid (proto.disconnect code message)]
      | none => []
  let r := BaseSession.close onCloseRaises s code message
  (r.1, pre ++ r.2.1, r.2.2)

/-- Session.on_delete: the container expiry callback. Not forced with a
running, not closed connection promotes; otherwise the session is closed
with the default close arguments. -/
def Session.on_delete (onCloseRaises : Bool) (now : Int) (forced : Bool)
    (s : Session) : Session × List Effect × Bool :=
  if forced = false ∧ s.handler ≠ none ∧ BaseSession.is_closed s = false then
    (SessionMixin.promote now s, [], false)
  else
    Session.close onCloseRaises s 3000 goAwayMsg

/-- Session.stop_heartbeat -/
def Session.stop_heartbeat (s : Session) : Session :=
  { s with heartbeat_timer := false }

/-- Session.start_heartbeat: stop any existing timer, then start one. -/
def Session.start_heartbeat (s : Session) : Session :=
  { Session.stop_heartbeat s with heartbeat_timer := true }

/-- Session._heartbeat: send the heartbeat frame while a handler is attached,
otherwise stop the timer. -/
def Session.heartbeat_fire (s : Session) : Session × List Effect :=
  match s.handler with
  | some h => (s, [Effect.sendPack h.hid proto.HEARTBEAT])
  | none => (Session.stop_heartbeat s, [])

/-- Session.set_handler: reject when occupied (disconnect 2010), on IP
mismatch under verify_ip (disconnect 2010), or when CLOSING/CLOSED
(disconnect with the recorded close reason); otherwise attach, promote and
start the heartbeat. now is the current time used by promote. -/
def Session.set_handler (now : Int) (s : Session) (h : Handler)
    (start_heartbeat : Bool) : Session × List Effect × Bool :=
  match s.handler with
  | some _ =>
    (s, [Effect.sendPack h.hid (proto.disconnect 2010 anotherConnMsg)], false)
  | none =>
    let ipReject : Option (List Effect) :=
      if s.verify_ip then
        match s.conn_info with
        | some ci =>
          if h.remote_ip ≠ ci.ip then
            some [Effect.logMsg (attachLogMsg s.session_id ci.ip h.remote_ip),
                  Effect.sendPack h.hid (proto.disconnect 2010 differentIPMsg)]
          else none
        | none => none
      else none
    match ipReject with
    | some efs => (s, efs, false)
    | none =>
      if s.state = SESSION_STATE.CLOSING ∨ s.state = SESSION_STATE.CLOSED then
        (s, [Effect.sendPack h.hid
              (proto.disconnect (BaseSession.get_close_reason s).1
                                (BaseSession.get_close_reason s).2)], false)
      else
        let r := BaseSession.set_handler s h
        let s2 := SessionMixin.promote now r.1
        let s3 := if start_heartbeat then Session.start_heartbeat s2 else s2
        (s3, r.2.1, true)

/-- Session.verify_state: in CONNECTING, send the open frame through the
attached handler, then run the base transition. The Bool is true when the
Python code would raise (no handler attached while CONNECTING); the raise
happens before any mutation. -/
def Session.verify_state (s : Session) : Session × List Effect × Bool :=
  if s.state = SESSION_STATE.CONNECTING then
    match s.handler with
    | none => (s, [], true)
    | some h =>
      let r := BaseSession.verify_state s
      (r.1, Effect.sendPack h.hid proto.CONNECT :: r.2, false)
  else
    let r := BaseSession.verify_state s
    (r.1, r.2, false)

/-- Session.remove_handler: detach (raising, with no mutation, if the handler
is not the attached one), promote and stop the heartbeat. -/
def Session.remove_handler (now : Int) (s : Session) (h : Handler) :
    Session × Bool :=
  let r := BaseSession.remove_handler s h
  if r.2 then (s, true)
  else (Session.stop_heartbeat (SessionMixin.promote now r.1), false)

/-- The queue-append step of send_jsonified:
if self.send_queue: self.send_queue += ','; self.send_queue += msg. -/
def pyJoin (q m : String) : String :=
  if q = "" then m else q ++ "," ++ m

/-- Session.flush: clear the pending flag; with a handler and a nonempty
queue, send one a[...] frame and clear the queue. -/
def Session.flush (s : Session) : Session × List Effect :=
  let s1 := { s with pending_flush := false }
  match s1.handler with
  | none => (s1, [])
  | some h =>
    if s1.send_queue = "" then (s1, [])
    else
      ({ s1 with send_queue := "" },
       [Effect.sendPack h.hid (aFrame s1.send_queue)])

/-- Session.send_jsonified: immediate mode sends a single-fragment frame
when a handler is attached and the queue is empty, else appends and flushes
synchronously; deferred mode appends and schedules one flush when none is
pending. The stats flag adds the pack-sent stats update. -/
def Session.send_jsonified (s : Session) (msg : String) (stats : Bool) :
    Session × List Effect :=
  let r :=
    if s.immediate_flush then
      match s.handler with
      | some h =>
        if s.send_queue = "" then
          (s, [Effect.sendPack h.hid (aFrame msg)])
        else
          Session.flush { s with send_queue := pyJoin s.send_queue msg }
      | none =>
        Session.flush { s with send_queue := pyJoin s.send_queue msg }
    else
      let s1 := { s with send_queue := pyJoin s.send_queue msg }
      if s1.pending_flush then (s1, [])
      else ({ s1 with pending_flush := true }, [Effect.scheduleFlush])
  (r.1, r.2 ++ (if stats then [Effect.statsPackSent 1] else []))

/-- One send_jsonified call (stats on, the default) with accumulated effects. -/
def sendStep (acc : Session × List Effect) (m : String) : Session × List Effect :=
  let r := Session.send_jsonified acc.1 m true
  (r.1, acc.2 ++ r.2)

/-- A burst of send_jsonified calls (stats on, the default), in order. -/
def Session.sendAll (s : Session) (msgs : List String) : Session × List Effect :=
  msgs.foldl sendStep (s, [])

/-!
The session container (src/sockjs/cyclone/sessioncontainer.py).

The container is generic over the stored entry type, as the Python code only
uses session_id, promoted, expiry, expiry_date and on_delete of its entries;
EntryIface bundles those accessors. onDelete returns the mutated entry plus
its effects (an exception escaping on_delete would abort the Python sweep;
no claim settled here reaches such a state).

The heapq min-heap is embedded as a list kept sorted by expiry_date
(minimum first): heapq exposes the minimum at index 0, heappush inserts,
heappop removes the minimum. Entries mutate expiry_date only between a pop
and the following re-push, so sort keys are stable while queued.

Python aliasing: the dict and the heap reference the same session objects,
so mutations the sweep performs on a popped entry are visible through the
dict. The embedding stores values in both places and mirrors the sweep
mutations into the map entry of the same id (mapUpdIfPresent); this agrees
with the source exactly on container states where each heap entry is the
very object the map stores under its id and heap ids are pairwise distinct
(the hypotheses of the amended C1 theorem, true of every container built by
add and sweeps alone).

The final map deletion of the sweep is Python del self._items[...], which
raises KeyError when the id is absent - reachable through remove(), whose
lazy deletion leaves the removed object in the heap. expireAux models this:
it checks presence and, on an absent id, aborts the sweep, returning the
container as mutated so far (entry already popped, map untouched), the
effects emitted so far, and an error flag set to true.
-/

/-- Lookup in the id map (Python dict.get). -/
def mapLookup {σ : Type} (k : String) : List (String × σ) → Option σ
  | [] => none
  | kv :: rest => if kv.1 = k then some kv.2 else mapLookup k rest

/-- Python dict assignment: replace in place if present, else append. -/
def mapInsert {σ : Type} (k : String) (v : σ) : List (String × σ) → List (String × σ)
  | [] => [(k, v)]
  | kv :: rest => if kv.1 = k then (k, v) :: rest else kv :: mapInsert k v rest

/-- Mirror a mutation of the object with id k into the map (Python aliasing);
ids absent from the map are untouched. -/
def mapUpdIfPresent {σ : Type} (k : String) (v : σ)
    (m : List (String × σ)) : List (String × σ) :=
  m.map (fun kv => if kv.1 = k then (k, v) else kv)

/-- Removal of a key from the map. Python del dict[k] raises KeyError on an
absent key; SessionContainer.expireAux therefore only applies mapErase
after a presence check and aborts with its error flag otherwise. (The
spec-side sweepFromSpecAux uses mapErase unguarded: the spec's sweep
removes the entry and continues, with no error case.) -/
def mapErase {σ : Type} (k : String) (m : List (String × σ)) : List (String × σ) :=
  m.filter (fun kv => kv.1 ≠ k)

/-- The entry accessors the container needs. -/
structure EntryIface (σ : Type) : Type where
  sid : σ → String
  promoted : σ → Option Int
  setPromoted : Option Int → σ → σ
  expiry : σ → Option Int
  expiry_date : σ → Int
  setExpiryDate : Int → σ → σ
  onDelete : Bool → σ → σ × List Effect

/-- SessionContainer state: _items is the id map, _queue the heap. -/
structure SessionContainer (σ : Type) : Type where
  _items : List (String × σ)
  _queue : List σ
  deriving DecidableEq, Repr

/-- heapq.heappush: insert keeping the minimum first. -/
def heappush {σ : Type} (I : EntryIface σ) : List σ → σ → List σ
  | [], x => [x]
  | y :: q, x =>
    if I.expiry_date x < I.expiry_date y then x :: y :: q
    else y :: heappush I q x

/-- SessionContainer.add: store in the map; push into the heap only when
expiry is set. -/
def SessionContainer.add {σ : Type} (I : EntryIface σ)
    (c : SessionContainer σ) (s : σ) : SessionContainer σ :=
  let items := mapInsert (I.sid s) s c._items
  match I.expiry s with
  | some _ => { _items := items, _queue := heappush I c._queue s }
  | none => { _items := items, _queue := c._queue }

/-- SessionContainer.get -/
def SessionContainer.get {σ : Type} (c : SessionContainer σ)
    (session_id : String) : Option σ :=
  mapLookup session_id c._items

/-- The while loop of SessionContainer.expire, fuelled. Each recursive call
pops one entry; an entry re-pushed during the sweep has promoted cleared and
expiry_date > now, so it triggers the early exit if it reaches the top and
is never popped again: fuel = initial queue length + 1 therefore never runs
out before the loop exits on its own.

The result Bool is true when the Python loop raises: del self._items[...]
on an id absent from the map (a stale heap entry left by remove()) raises
KeyError, aborting the sweep with the entry already popped, the map
untouched by the failed del, and the effects so far already emitted. -/
def SessionContainer.expireAux {σ : Type} (I : EntryIface σ) (now : Int) :
    Nat → SessionContainer σ → SessionContainer σ × List Effect × Bool
  | 0, c => (c, [], false)
  | fuel + 1, c =>
    match c._queue with
    | [] => (c, [], false)
    | top :: rest =>
      -- Early exit if item was not promoted and its expiration time
      -- is greater than now.
      if I.promoted top = none ∧ I.expiry_date top > now then (c, [], false)
      else
        let nr0 : Bool :=
          match I.promoted top with
          | some p => decide (p > now)
          | none => false
        -- Give chance to reschedule
        let r1 :=
          if nr0 then (top, ([] : List Effect))
          else I.onDelete false (I.setPromoted none top)
        let top1 := r1.1
        let cont := fun (c1 : SessionContainer σ) =>
          let r2 := SessionContainer.expireAux I now fuel c1
          (r2.1, r1.2 ++ r2.2.1, r2.2.2)
        match I.promoted top1 with
        | some p =>
          if p > now then
            -- If item is promoted and expiration time somewhere in future
            -- just reschedule it
            let top2 := I.setPromoted none (I.setExpiryDate p top1)
            cont { _items := mapUpdIfPresent (I.sid top2) top2 c._items,
                   _queue := heappush I rest top2 }
          else
            -- del self._items[top.session_id]: KeyError when absent
            match mapLookup (I.sid top1) c._items with
            | some _ =>
              cont { _items := mapErase (I.sid top1) c._items, _queue := rest }
            | none => ({ _items := c._items, _queue := rest }, r1.2, true)
        | none =>
          match mapLookup (I.sid top1) c._items with
          | some _ =>
            cont { _items := mapErase (I.sid top1) c._items, _queue := rest }
          | none => ({ _items := c._items, _queue := rest }, r1.2, true)

/-- SessionContainer.expire (the sweep). The Bool of the result is true when
the Python code raises KeyError (see expireAux). -/
def SessionContainer.expire {σ : Type} (I : EntryIface σ) (now : Int)
    (c : SessionContainer σ) : SessionContainer σ × List Effect × Bool :=
  if c._queue.isEmpty then (c, [], false)
  else SessionContainer.expireAux I now (c._queue.length + 1) c

/-- The needsReschedule predicate of spec section 4.1:
the promoted deadline is set and greater than now. -/
def needsReschedule {σ : Type} (I : EntryIface σ) (now : Int) (e : σ) : Bool :=
  match I.promoted e with
  | some p => decide (p > now)
  | none => false

/-- Modelled from the spec (section 4.1, sweep bullets), for comparison with
the code embedding SessionContainer.expireAux: while the heap is nonempty,
stop when the minimum has no promoted deadline and its expiry deadline is
greater than now; otherwise pop it; if not needing reschedule, clear the
promoted deadline, invoke the deletion callback with forced = false and
re-evaluate; if needing reschedule, set the expiry deadline to the promoted
deadline, clear it and re-push; else remove the entry from the map. -/
def SessionContainer.sweepFromSpecAux {σ : Type} (I : EntryIface σ) (now : Int) :
    Nat → SessionContainer σ → SessionContainer σ × List Effect
  | 0, c => (c, [])
  | fuel + 1, c =>
    match c._queue with
    | [] => (c, [])
    | minE :: rest =>
      if I.promoted minE = none ∧ I.expiry_date minE > now then (c, [])
      else
        let r1 :=
          if needsReschedule I now minE then (minE, ([] : List Effect))
          else I.onDelete false (I.setPromoted none minE)
        let e1 := r1.1
        let r2 :=
          if needsReschedule I now e1 then
            let p := (I.promoted e1).getD 0
            let e2 := I.setPromoted none (I.setExpiryDate p e1)
            SessionContainer.sweepFromSpecAux I now fuel
              { _items := mapUpdIfPresent (I.sid e2) e2 c._items,
                _queue := heappush I rest e2 }
          else
            SessionContainer.sweepFromSpecAux I now fuel
              { _items := mapErase (I.sid e1) c._items, _queue := rest }
        (r2.1, r1.2 ++ r2.2)

/-- Modelled from the spec: the sweep as spec section 4.1 words it. -/
def SessionContainer.sweepFromSpec {σ : Type} (I : EntryIface σ) (now : Int)
    (c : SessionContainer σ) : SessionContainer σ × List Effect :=
  if c._queue.isEmpty then (c, [])
  else SessionContainer.sweepFromSpecAux I now (c._queue.length + 1) c

/-- The EntryIface instance tying the container to real sessions, per
sessioncontainer.py using session_id, promoted, expiry, expiry_date and
on_delete of the stored Session objects. now is the sweep evaluation time
(Session.promote reads time() during the sweep), onCloseRaises the behavior
of the application on_close callback. The raise flag of Session.on_delete
(an AttributeError escaping close on a never-attached session, see C10) is
dropped here: such an exception would abort the Python sweep like the
KeyError that expireAux does model; no claim settled through this interface
reaches that state (their hypotheses force the promote branch or a session
with a transport name). -/
def sessionIface (onCloseRaises : Bool) (now : Int) : EntryIface Session :=
  { sid := Session.session_id
    promoted := Session.promoted
    setPromoted := fun p s => { s with promoted := p }
    expiry := Session.expiry
    expiry_date := Session.expiry_date
    setExpiryDate := fun d s => { s with expiry_date := d }
    onDelete := fun forced s =>
      let r := Session.on_delete onCloseRaises now forced s
      (r.1, r.2.1) }

/-- Iterated sweeps of a Session container at the given times. -/
def sessionSweeps (onCloseRaises : Bool) (nows : List Int)
    (c : SessionContainer Session) : SessionContainer Session :=
  nows.foldl
    (fun c now => (SessionContainer.expire (sessionIface onCloseRaises now) now c).1)
    c

/-- Session states reachable from a fresh session by the operations the
session layer exposes (handler attach/detach, send, flush, close, delayed
close, the sweep expiry callback, and state verification). -/
inductive ReachableSession (settings : ServerSettings) : Session → Prop where
  | create (sid : String) (expiry : Option Int) (now : Int) :
      ReachableSession settings (Session.create settings sid expiry now)
  | set_handler (s : Session) (h : Handler) (now : Int) (shb : Bool) :
      ReachableSession settings s →
      ReachableSession settings (Session.set_handler now s h shb).1
  | verify (s : Session) :
      ReachableSession settings s →
      ReachableSession settings (Session.verify_state s).1
  | remove_handler (s : Session) (h : Handler) (now : Int) :
      ReachableSession settings s →
      ReachableSession settings (Session.remove_handler now s h).1
  | send (s : Session) (msg : String) (st : Bool) :
      ReachableSession settings s →
      ReachableSession settings (Session.send_jsonified s msg st).1
  | flushStep (s : Session) :
      ReachableSession settings s →
      ReachableSession settings (Session.flush s).1
  | closeStep (s : Session) (raises : Bool) (code : Int) (msg : String) :
      ReachableSession settings s →
      ReachableSession settings (Session.close raises s code msg).1
  | delayed_close (s : Session) :
      ReachableSession settings s →
      ReachableSession settings (BaseSession.delayed_close s).1
  | sweep_callback (s : Session) (raises : Bool) (now : Int) (forced : Bool) :
      ReachableSession settings s →
      ReachableSession settings (Session.on_delete raises now forced s).1

/-- Shared concrete inputs for witnesses and counterexamples. -/
def xhrName : String := "xhr"

def ipA : String := "10.0.0.1"

def ipB : String := "10.9.9.9"

def sidW : String := "w1"

def wSettings : ServerSettings :=
  { heartbeat_delay := 25, immediate_flush := false, verify_ip := true }

def wHandler : Handler :=
  { hid := 1, name := xhrName, remote_ip := ipA, cookies := [], arguments := [] }

def wHandler2 : Handler :=
  { hid := 2, name := xhrName, remote_ip := ipB, cookies := [], arguments := [] }

/-- A fresh session on which delayed_close was called: it is CLOSING but no
close reason has been recorded yet (the reason is recorded only when the
scheduled close itself runs). -/
def sDelayed : Session :=
  (BaseSession.delayed_close (Session.create wSettings sidW none 0)).1

/-- Comma-joining of fragments in call order, as the claim words the frame
body f1 + "," + f2 + ... + "," + fn. -/
def joinC : List String → String
  | [] => ""
  | [m] => m
  | m :: rest => m ++ "," ++ joinC rest

/-- Whether an effect is an outbound frame. -/
def Effect.isSendPack : Effect → Bool
  | Effect.sendPack _ _ => true
  | _ => false

/-- Whether an effect schedules a flush for the next reactor turn. -/
def Effect.isScheduleFlush : Effect → Bool
  | Effect.scheduleFlush => true
  | _ => false

/-- More concrete strings for witnesses and counterexamples. -/
def emptyS : String := ""

def xS : String := "x"

def helloS : String := "hello"

def worldS : String := "world"

def frameAX : String := "a[x]"

/-- A deferred-flush session with a handler attached and an empty queue. -/
def s7w : Session :=
  { Session.create wSettings sidW none 0 with handler := some wHandler }

/-- A concrete active session for the C2 witness: attached handler, OPEN,
expiry 5, deadline 5, swept at time 20. -/
def wActive : Session :=
  { Session.create wSettings sidW (some 5) 0 with
      handler := some wHandler, state := SESSION_STATE.OPEN,
      transport_name := some xhrName }

/-- Ids for the C1 counterexample and witness containers. -/
def staleId : String := "stale1"

def behindId : String := "behind1"

def dueId : String := "due1"

/-- A session exactly as remove() leaves it: closed by on_delete(True),
promoted set to the -1 sentinel, deleted from the map - but still in the
heap, since remove() never touches the heap. -/
def sStale : Session :=
  { Session.create wSettings staleId (some 5) 0 with
      state := SESSION_STATE.CLOSED, close_reason := some (3000, goAwayMsg),
      transport_name := some xhrName, promoted := some (-1) }

/-- A due, unattached session queued behind the stale entry. -/
def sBehind : Session :=
  { Session.create wSettings behindId (some 10) 0 with
      transport_name := some xhrName, state := SESSION_STATE.OPEN }

/-- The container after remove(staleId): the map no longer has the stale id,
the heap still holds the stale object in front of a due session. -/
def cStale : SessionContainer Session :=
  { _items := [(behindId, sBehind)], _queue := [sStale, sBehind] }

/-- A well-formed single-entry container (heap entry is the map entry) for
the C1 witness. -/
def sDue : Session :=
  { Session.create wSettings dueId (some 5) 0 with
      transport_name := some xhrName, state := SESSION_STATE.OPEN }

def cDue : SessionContainer Session :=
  { _items := [(dueId, sDue)], _queue := [sDue] }

/-!
Theorems. Helper lemmas first, then one theorem per claim (C1 to C10).
-/

theorem mapLookup_mapInsert {σ : Type} (k : String) (v : σ)
    (m : List (String × σ)) : mapLookup k (mapInsert k v m) = some v := by
  induction m with
  | nil => simp [mapInsert, mapLookup]
  | cons kv rest ih =>
    by_cases hk : kv.1 = k
    · simp [mapInsert, mapLookup, hk]
    · simp [mapInsert, mapLookup, hk, ih]

theorem mapLookup_mapUpdIfPresent_ne {σ : Type} (k k' : String) (v : σ)
    (m : List (String × σ)) (h : k' ≠ k) :
    mapLookup k (mapUpdIfPresent k' v m) = mapLookup k m := by
  induction m with
  | nil => rfl
  | cons kv rest ih =>
    by_cases hk : kv.1 = k'
    · have : kv.1 ≠ k := by rw [hk]; exact h
      simp [mapUpdIfPresent, mapLookup, hk, h, this] at ih ⊢
      exact ih
    · simp [mapUpdIfPresent, mapLookup, hk] at ih ⊢
      by_cases hk2 : kv.1 = k
      · simp [hk2]
      · simp [hk2]
        exact ih

theorem mapLookup_mapErase_ne {σ : Type} (k k' : String)
    (m : List (String × σ)) (h : k' ≠ k) :
    mapLookup k (mapErase k' m) = mapLookup k m := by
  induction m with
  | nil => rfl
  | cons kv rest ih =>
    by_cases hk : kv.1 = k'
    · have hne : kv.1 ≠ k := by rw [hk]; exact h
      simp [mapErase, mapLookup, hk, hne, h] at ih ⊢
      exact ih
    · simp [mapErase, mapLookup, hk] at ih ⊢
      by_cases hk2 : kv.1 = k
      · simp [hk2, mapLookup]
      · simp [hk2, mapLookup]
        exact ih

theorem mem_heappush {σ : Type} (I : EntryIface σ) :
    ∀ (q : List σ) (x t : σ), t ∈ heappush I q x → t ∈ q ∨ t = x := by
  intro q
  induction q with
  | nil =>
    intro x t ht
    simp [heappush] at ht
    right
    exact ht
  | cons y rest ih =>
    intro x t ht
    unfold heappush at ht
    by_cases hc : I.expiry_date x < I.expiry_date y
    · rw [if_pos hc] at ht
      rcases List.mem_cons.mp ht with h1 | h2
      · right; exact h1
      · left; exact h2
    · rw [if_neg hc] at ht
      rcases List.mem_cons.mp ht with h1 | h2
      · left; rw [h1]; exact List.mem_cons_self _ _
      · rcases ih x t h2 with h3 | h4
        · left; exact List.mem_cons_of_mem _ h3
        · right; exact h4

theorem mapLookup_mapUpdIfPresent_self {σ : Type} (k : String) (v w : σ)
    (m : List (String × σ)) (h : mapLookup k m = some w) :
    mapLookup k (mapUpdIfPresent k v m) = some v := by
  induction m with
  | nil => simp [mapLookup] at h
  | cons kv rest ih =>
    by_cases hk : kv.1 = k
    · simp [mapUpdIfPresent, mapLookup, hk]
    · simp [mapUpdIfPresent, mapLookup, hk] at h ⊢
      exact ih h

theorem heappush_perm {σ : Type} (I : EntryIface σ) :
    ∀ (q : List σ) (x : σ), List.Perm (heappush I q x) (x :: q) := by
  intro q
  induction q with
  | nil => intro x; exact List.Perm.refl _
  | cons y rest ih =>
    intro x
    unfold heappush
    by_cases hc : I.expiry_date x < I.expiry_date y
    · rw [if_pos hc]
    · rw [if_neg hc]
      exact List.Perm.trans (List.Perm.cons y (ih x)) (List.Perm.swap x y rest)

theorem session_on_delete_sid (raises : Bool) (now : Int) (forced : Bool)
    (s : Session) :
    (Session.on_delete raises now forced s).1.session_id = s.session_id := by
  unfold Session.on_delete
  split
  · unfold SessionMixin.promote
    cases hx : s.expiry <;> simp
  · unfold Session.close BaseSession.close
    by_cases hst : s.state = SESSION_STATE.CLOSED
    · simp [hst]
    · cases htn : s.transport_name <;> cases hh : s.handler <;> simp [hst, htn, hh]

theorem expireAux_eq_sweepFromSpecAux {σ : Type} (I : EntryIface σ) (now : Int)
    (hs1 : ∀ (p : Option Int) (t : σ), I.sid (I.setPromoted p t) = I.sid t)
    (hs2 : ∀ (d : Int) (t : σ), I.sid (I.setExpiryDate d t) = I.sid t)
    (hs3 : ∀ (b : Bool) (t : σ), I.sid ((I.onDelete b t).1) = I.sid t) :
    ∀ (fuel : Nat) (c : SessionContainer σ),
      (∀ t ∈ c._queue, mapLookup (I.sid t) c._items = some t) →
      ((c._queue.map I.sid).Nodup) →
      SessionContainer.expireAux I now fuel c =
        ((SessionContainer.sweepFromSpecAux I now fuel c).1,
         (SessionContainer.sweepFromSpecAux I now fuel c).2, false) := by
  intro fuel
  induction fuel with
  | zero => intro c _ _; rfl
  | succ n ih =>
    intro c halias hnodup
    unfold SessionContainer.expireAux SessionContainer.sweepFromSpecAux
    cases hq : c._queue with
    | nil => rfl
    | cons top rest =>
      dsimp only
      have htop : mapLookup (I.sid top) c._items = some top :=
        halias top (by rw [hq]; exact List.mem_cons_self _ _)
      have halias_rest : ∀ t ∈ rest, mapLookup (I.sid t) c._items = some t :=
        fun t ht => halias t (by rw [hq]; exact List.mem_cons_of_mem _ ht)
      have hnodup2 : (I.sid top :: rest.map I.sid).Nodup := by
        have := hnodup
        rw [hq] at this
        simpa using this
      have htop_notin : I.sid top ∉ rest.map I.sid := (List.nodup_cons.mp hnodup2).1
      have hnodup_rest : (rest.map I.sid).Nodup := (List.nodup_cons.mp hnodup2).2
      by_cases hg : I.promoted top = none ∧ I.expiry_date top > now
      · rw [if_pos hg, if_pos hg]
      · rw [if_neg hg, if_neg hg]
        simp only [needsReschedule]
        have hsid1 : I.sid ((if (match I.promoted top with
            | some p => decide (p > now)
            | none => false) = true then (top, ([] : List Effect))
            else I.onDelete false (I.setPromoted none top)).1) = I.sid top := by
          split
          · rfl
          · rw [hs3, hs1]
        generalize hr1 : (if (match I.promoted top with
            | some p => decide (p > now)
            | none => false) = true then (top, ([] : List Effect))
            else I.onDelete false (I.setPromoted none top)) = r1
        rw [hr1] at hsid1
        have hlook : mapLookup (I.sid r1.1) c._items = some top := by
          rw [hsid1]
          exact htop
        have hdel : ∀ t ∈ rest,
            mapLookup (I.sid t) (mapErase (I.sid r1.1) c._items) = some t := by
          intro t ht
          have hne : I.sid r1.1 ≠ I.sid t := by
            rw [hsid1]
            intro hx
            exact htop_notin (hx ▸ List.mem_map_of_mem I.sid ht)
          rw [mapLookup_mapErase_ne _ _ _ hne]
          exact halias_rest t ht
        cases hp : I.promoted r1.1 with
        | some p =>
          by_cases hpn : p > now
          · simp only [hp, Option.getD_some, if_pos hpn, decide_eq_true_eq, hpn]
            have hsid2 : I.sid (I.setPromoted none (I.setExpiryDate p r1.1)) = I.sid top := by
              rw [hs1, hs2, hsid1]
            have hinv1 : ∀ t ∈ heappush I rest (I.setPromoted none (I.setExpiryDate p r1.1)),
                mapLookup (I.sid t)
                  (mapUpdIfPresent (I.sid (I.setPromoted none (I.setExpiryDate p r1.1)))
                    (I.setPromoted none (I.setExpiryDate p r1.1)) c._items) = some t := by
              intro t ht
              rcases mem_heappush I rest _ t ht with h1 | h2
              · have hne : I.sid (I.setPromoted none (I.setExpiryDate p r1.1)) ≠ I.sid t := by
                  rw [hsid2]
                  intro hx
                  exact htop_notin (hx ▸ List.mem_map_of_mem I.sid h1)
                rw [mapLookup_mapUpdIfPresent_ne _ _ _ _ hne]
                exact halias_rest t h1
              · rw [h2]
                exact mapLookup_mapUpdIfPresent_self _ _ top _ (by rw [hsid2]; exact htop)
            have hinv2 : ((heappush I rest
                (I.setPromoted none (I.setExpiryDate p r1.1))).map I.sid).Nodup := by
              rw [List.Perm.nodup_iff
                ((heappush_perm I rest (I.setPromoted none (I.setExpiryDate p r1.1))).map I.sid)]
              simp only [List.map_cons]
              rw [hsid2]
              exact hnodup2
            rw [ih _ hinv1 hinv2]
            simp
          · simp only [hp, if_neg hpn, decide_eq_true_eq, hpn, hlook]
            rw [ih ⟨mapErase (I.sid r1.1) c._items, rest⟩ hdel hnodup_rest]
            simp [hpn]
        | none =>
          simp only [hp, hlook]
          rw [ih ⟨mapErase (I.sid r1.1) c._items, rest⟩ hdel hnodup_rest]
          simp


/-- C1 counterexample: on the container left by remove() (stale heap entry
whose id is gone from the map, a due session queued behind it), the real
sweep raises KeyError at del self._items[...] and aborts (error flag true),
leaving the due session unswept and still reachable, whereas the claimed
algorithm deletes the entry from the map and continues, expiring the due
session: sweep(now) does not follow the claimed algorithm on every
container state. -/
theorem sweep_aborts_on_stale_entry_counterexample :
    (SessionContainer.expire (sessionIface false 20) 20 cStale).2.2 = true ∧
    SessionContainer.get
        (SessionContainer.expire (sessionIface false 20) 20 cStale).1 behindId =
      some sBehind ∧
    SessionContainer.get
        (SessionContainer.sweepFromSpec (sessionIface false 20) 20 cStale).1 behindId =
      none ∧
    SessionContainer.expire (sessionIface false 20) 20 cStale ≠
      ((SessionContainer.sweepFromSpec (sessionIface false 20) 20 cStale).1,
       (SessionContainer.sweepFromSpec (sessionIface false 20) 20 cStale).2,
       false) := by
  decide

/-- C1 (amended): sweep(now) follows exactly the claimed algorithm and
completes without error on every container state in which each heap entry
is the very object the map stores under its id and heap ids are pairwise
distinct - the states reachable by add and sweeps alone, remove() excluded.
On other states (stale heap entries left by remove's lazy deletion) the
final map deletion raises KeyError and the sweep aborts instead. The sid
hypotheses say the entry accessors and deletion callback do not change an
entry's id, as holds for sessions. -/
theorem expire_follows_spec_algorithm {σ : Type} (I : EntryIface σ) (now : Int)
    (c : SessionContainer σ)
    (hs1 : ∀ (p : Option Int) (t : σ), I.sid (I.setPromoted p t) = I.sid t)
    (hs2 : ∀ (d : Int) (t : σ), I.sid (I.setExpiryDate d t) = I.sid t)
    (hs3 : ∀ (b : Bool) (t : σ), I.sid ((I.onDelete b t).1) = I.sid t)
    (halias : ∀ t ∈ c._queue, mapLookup (I.sid t) c._items = some t)
    (hnodup : (c._queue.map I.sid).Nodup) :
    SessionContainer.expire I now c =
      ((SessionContainer.sweepFromSpec I now c).1,
       (SessionContainer.sweepFromSpec I now c).2, false) := by
  unfold SessionContainer.expire SessionContainer.sweepFromSpec
  by_cases h : c._queue.isEmpty
  · rw [if_pos h, if_pos h]
  · rw [if_neg h, if_neg h]
    exact expireAux_eq_sweepFromSpecAux I now hs1 hs2 hs3 _ c halias hnodup

/-- Witness for C1 (amended) on a concrete well-formed container whose one
due session gets expired by both the code and the spec algorithm. -/
theorem expire_follows_spec_algorithm_witness :
    SessionContainer.expire (sessionIface false 20) 20 cDue =
      ((SessionContainer.sweepFromSpec (sessionIface false 20) 20 cDue).1,
       (SessionContainer.sweepFromSpec (sessionIface false 20) 20 cDue).2,
       false) :=
  expire_follows_spec_algorithm (sessionIface false 20) 20 cDue
    (fun p t => rfl) (fun d t => rfl)
    (fun b t => session_on_delete_sid false 20 b t)
    (by decide) (by decide)


/-- C2: a session with positive expiry, an attached handler and not closed,
whose expiry deadline has passed, is promoted by the sweep through its
deletion callback and re-pushed into the heap instead of being closed or
removed: only promoted (cleared) and expiry_date (now + expiry) change, the
session stays in the map and is still reachable via get, and no close or
frame effect is emitted. -/
theorem active_session_survives_sweep (s : Session) (h : Handler) (e now : Int)
    (raises : Bool)
    (hh : s.handler = some h) (he : s.expiry = some e) (hpos : 0 < e)
    (hnc : BaseSession.is_closed s = false) (hpr : s.promoted = none)
    (hdue : s.expiry_date ≤ now) :
    SessionContainer.expire (sessionIface raises now) now
        { _items := [(s.session_id, s)], _queue := [s] } =
      ({ _items := [(s.session_id, { s with promoted := none, expiry_date := now + e })],
         _queue := [{ s with promoted := none, expiry_date := now + e }] }, [], false) ∧
    SessionContainer.get
        (SessionContainer.expire (sessionIface raises now) now
          { _items := [(s.session_id, s)], _queue := [s] }).1 s.session_id =
      some { s with promoted := none, expiry_date := now + e } := by
  have h1 : ¬ (s.expiry_date > now) := not_lt.mpr hdue
  have h2 : now + e > now := by omega
  have hnc' := hnc
  simp only [BaseSession.is_closed, Bool.or_eq_false_iff, decide_eq_false_iff_not] at hnc'
  obtain ⟨hs1, hs2⟩ := hnc'
  have hmain : SessionContainer.expire (sessionIface raises now) now
      { _items := [(s.session_id, s)], _queue := [s] } =
      ({ _items := [(s.session_id, { s with promoted := none, expiry_date := now + e })],
         _queue := [{ s with promoted := none, expiry_date := now + e }] }, [], false) := by
    simp [SessionContainer.expire, SessionContainer.expireAux, sessionIface,
      Session.on_delete, Session.close, BaseSession.close, BaseSession.is_closed,
      SessionMixin.promote, mapUpdIfPresent, heappush,
      hh, he, hpr, hs1, hs2, h1, h2]
  refine ⟨hmain, ?_⟩
  rw [hmain]
  simp [SessionContainer.get, mapLookup]

theorem set_handler_preserves_state_reason (now : Int) (s : Session) (h : Handler)
    (shb : Bool) :
    (Session.set_handler now s h shb).1.state = s.state ∧
    (Session.set_handler now s h shb).1.close_reason = s.close_reason := by
  unfold Session.set_handler BaseSession.set_handler SessionMixin.promote
    Session.start_heartbeat Session.stop_heartbeat
  rcases s with ⟨sej, hand, st, ci, cr, tn, sid, pr, ex, ed, sq, hb, hbi, imf, pf, vip⟩
  cases hand <;> cases ci <;> cases ex <;> cases shb <;>
    simp <;> split_ifs <;> simp

theorem remove_handler_preserves_state_reason (now : Int) (s : Session) (h : Handler) :
    (Session.remove_handler now s h).1.state = s.state ∧
    (Session.remove_handler now s h).1.close_reason = s.close_reason := by
  unfold Session.remove_handler BaseSession.remove_handler SessionMixin.promote
    Session.stop_heartbeat
  rcases s with ⟨sej, hand, st, ci, cr, tn, sid, pr, ex, ed, sq, hb, hbi, imf, pf, vip⟩
  cases ex <;> simp <;> split_ifs <;> simp

theorem flush_preserves_state_reason (s : Session) :
    (Session.flush s).1.state = s.state ∧
    (Session.flush s).1.close_reason = s.close_reason := by
  unfold Session.flush
  rcases s with ⟨sej, hand, st, ci, cr, tn, sid, pr, ex, ed, sq, hb, hbi, imf, pf, vip⟩
  cases hand
  · simp
  · simp
    split_ifs <;> simp

theorem send_preserves_state_reason (s : Session) (msg : String) (st : Bool) :
    (Session.send_jsonified s msg st).1.state = s.state ∧
    (Session.send_jsonified s msg st).1.close_reason = s.close_reason := by
  unfold Session.send_jsonified Session.flush
  rcases s with ⟨sej, hand, sta, ci, cr, tn, sid, pr, ex, ed, sq, hb, hbi, imf, pf, vip⟩
  cases hand <;> cases imf <;> simp <;> split_ifs <;> simp

theorem close_state_reason (raises : Bool) (s : Session) (code : Int) (msg : String) :
    ((Session.close raises s code msg).1 = s ∧ s.state = SESSION_STATE.CLOSED) ∨
    ((Session.close raises s code msg).1.state = SESSION_STATE.CLOSED ∧
     (Session.close raises s code msg).1.close_reason = some (code, msg)) := by
  unfold Session.close BaseSession.close
  by_cases hst : s.state = SESSION_STATE.CLOSED
  · left
    simp [hst]
  · right
    rcases s with ⟨sej, hand, sta, ci, cr, tn, sid, pr, ex, ed, sq, hb, hbi, imf, pf, vip⟩
    simp only at hst
    cases hand <;> cases tn <;> simp [hst]

theorem on_delete_state_reason (raises : Bool) (now : Int) (forced : Bool) (s : Session) :
    (Session.on_delete raises now forced s).1.state = s.state ∧
    (Session.on_delete raises now forced s).1.close_reason = s.close_reason ∨
    (Session.on_delete raises now forced s).1.state = SESSION_STATE.CLOSED ∧
    (Session.on_delete raises now forced s).1.close_reason = some (3000, goAwayMsg) := by
  unfold Session.on_delete
  by_cases hc : forced = false ∧ s.handler ≠ none ∧ BaseSession.is_closed s = false
  · left
    simp only [if_pos hc, SessionMixin.promote]
    cases hx : s.expiry <;> simp
  · rw [if_neg hc]
    rcases close_state_reason raises s 3000 goAwayMsg with ⟨heq, hst⟩ | ⟨h1, h2⟩
    · left
      rw [heq]
      exact ⟨rfl, rfl⟩
    · right
      exact ⟨h1, h2⟩

/-- C3 counterexample: the reachable session sDelayed is in state CLOSING
with no recorded close reason, so the claimed equivalence (closeReason set
iff state is CLOSED or CLOSING) fails on the code. -/
theorem closing_without_reason_counterexample :
    ReachableSession wSettings sDelayed ∧
    sDelayed.state = SESSION_STATE.CLOSING ∧
    sDelayed.close_reason = none ∧
    ¬ (sDelayed.close_reason ≠ none ↔
        (sDelayed.state = SESSION_STATE.CLOSED ∨
         sDelayed.state = SESSION_STATE.CLOSING)) :=
  ⟨ReachableSession.delayed_close _ (ReachableSession.create sidW none 0),
   by decide, by decide, by decide⟩

/-- C3 (amended): for every reachable session state, a recorded closeReason
implies the state is CLOSING or CLOSED. The converse direction of the claim
fails: after delayed_close and before the scheduled close runs, the state is
CLOSING with no close reason recorded. -/
theorem close_reason_implies_closing_or_closed (settings : ServerSettings)
    (s : Session) (hr : ReachableSession settings s)
    (hcr : s.close_reason ≠ none) :
    s.state = SESSION_STATE.CLOSING ∨ s.state = SESSION_STATE.CLOSED := by
  suffices hinv : s.close_reason ≠ none →
      s.state = SESSION_STATE.CLOSING ∨ s.state = SESSION_STATE.CLOSED from
    hinv hcr
  clear hcr
  induction hr with
  | create sid expiry now =>
    intro hcr
    simp [Session.create] at hcr
  | set_handler s h now shb _ ih =>
    intro hcr
    rcases set_handler_preserves_state_reason now s h shb with ⟨h1, h2⟩
    rw [h1]
    exact ih (h2 ▸ hcr)
  | verify s _ ih =>
    intro hcr
    have hpres : (Session.verify_state s).1.close_reason = s.close_reason := by
      unfold Session.verify_state BaseSession.verify_state
      split_ifs <;> cases hh : s.handler <;> simp
    have hst := ih (hpres ▸ hcr)
    have hnc : ¬ s.state = SESSION_STATE.CONNECTING := by
      rcases hst with h | h <;> rw [h] <;> intro hx <;> exact absurd hx (by decide)
    have : (Session.verify_state s).1 = s := by
      unfold Session.verify_state BaseSession.verify_state
      simp [hnc]
    rw [this]
    exact hst
  | remove_handler s h now _ ih =>
    intro hcr
    rcases remove_handler_preserves_state_reason now s h with ⟨h1, h2⟩
    rw [h1]
    exact ih (h2 ▸ hcr)
  | send s msg st _ ih =>
    intro hcr
    rcases send_preserves_state_reason s msg st with ⟨h1, h2⟩
    rw [h1]
    exact ih (h2 ▸ hcr)
  | flushStep s _ ih =>
    intro hcr
    rcases flush_preserves_state_reason s with ⟨h1, h2⟩
    rw [h1]
    exact ih (h2 ▸ hcr)
  | closeStep s raises code msg _ ih =>
    intro hcr
    rcases close_state_reason raises s code msg with ⟨heq, hst⟩ | ⟨h1, _⟩
    · rw [heq]
      right
      exact hst
    · right
      exact h1
  | delayed_close s _ _ =>
    intro _
    left
    rfl
  | sweep_callback s raises now forced _ ih =>
    intro hcr
    rcases on_delete_state_reason raises now forced s with ⟨h1, h2⟩ | ⟨h1, _⟩
    · rw [h1]
      exact ih (h2 ▸ hcr)
    · right
      exact h1

/-- Witness for C3: a concrete closed reachable session with a recorded
close reason is CLOSING or CLOSED. -/
theorem close_reason_implies_closing_or_closed_witness :
    (Session.close false (Session.create wSettings sidW none 0) 3000 goAwayMsg).1.state
        = SESSION_STATE.CLOSING ∨
    (Session.close false (Session.create wSettings sidW none 0) 3000 goAwayMsg).1.state
        = SESSION_STATE.CLOSED :=
  close_reason_implies_closing_or_closed wSettings _
    (ReachableSession.closeStep _ false 3000 goAwayMsg
      (ReachableSession.create sidW none 0))
    (by decide)

/-- C4: set_handler on a session that already has a handler returns false,
sends the new handler exactly one disconnect frame with code 2010 and the
message about another open connection, and leaves the session unchanged. -/
theorem attach_rejected_when_handler_present (now : Int) (s : Session)
    (h0 h : Handler) (shb : Bool) (hh : s.handler = some h0) :
    Session.set_handler now s h shb =
      (s, [Effect.sendPack h.hid (proto.disconnect 2010 anotherConnMsg)], false) := by
  unfold Session.set_handler
  rw [hh]

/-- Witness for C4 at a concrete occupied session. -/
theorem attach_rejected_when_handler_present_witness :
    Session.set_handler 7
        { Session.create wSettings sidW none 0 with handler := some wHandler }
        wHandler2 true =
      ({ Session.create wSettings sidW none 0 with handler := some wHandler },
       [Effect.sendPack wHandler2.hid (proto.disconnect 2010 anotherConnMsg)],
       false) :=
  attach_rejected_when_handler_present 7
    { Session.create wSettings sidW none 0 with handler := some wHandler }
    wHandler wHandler2 true rfl

/-- C5: with IP verification enabled, no attached handler, and connection
info already recorded, set_handler with a handler whose remote IP differs
from the recorded one returns false, sends that handler a disconnect frame
with code 2010, and leaves the session (handler, state, everything)
unchanged; the mismatch is also logged. -/
theorem attach_rejected_on_ip_mismatch (now : Int) (s : Session) (h : Handler)
    (ci : ConnectionInfo) (shb : Bool)
    (hh : s.handler = none) (hv : s.verify_ip = true)
    (hci : s.conn_info = some ci) (hip : h.remote_ip ≠ ci.ip) :
    Session.set_handler now s h shb =
      (s, [Effect.logMsg (attachLogMsg s.session_id ci.ip h.remote_ip),
           Effect.sendPack h.hid (proto.disconnect 2010 differentIPMsg)],
       false) := by
  unfold Session.set_handler
  rw [hh]
  simp only [hv, hci, if_true, if_pos hip]

/-- Witness for C5 at a concrete session pinned to a different IP. -/
theorem attach_rejected_on_ip_mismatch_witness :
    Session.set_handler 7
        { Session.create wSettings sidW none 0 with
            conn_info := some (Handler.get_conn_info wHandler) }
        wHandler2 true =
      ({ Session.create wSettings sidW none 0 with
           conn_info := some (Handler.get_conn_info wHandler) },
       [Effect.logMsg (attachLogMsg sidW ipA ipB),
        Effect.sendPack wHandler2.hid (proto.disconnect 2010 differentIPMsg)],
       false) :=
  attach_rejected_on_ip_mismatch 7
    { Session.create wSettings sidW none 0 with
        conn_info := some (Handler.get_conn_info wHandler) }
    wHandler2 (Handler.get_conn_info wHandler) true rfl rfl rfl (by decide)

theorem close_on_closed (raises : Bool) (s : Session) (code : Int) (msg : String)
    (hst : s.state = SESSION_STATE.CLOSED) :
    Session.close raises s code msg = (s, [], false) := by
  unfold Session.close BaseSession.close
  simp [hst]

/-- C6: close is idempotent. On a not yet CLOSED session with an attached
handler (hence a transport name recorded by set_handler), the first close
transitions to CLOSED, records the close reason, and emits exactly one
disconnect frame and exactly one session-closed stats update (the full
effect list is stated); a second close is a no-op returning the session
unchanged with no effects. -/
theorem close_idempotent (raises raises2 : Bool) (s : Session) (h : Handler)
    (tn : String) (code code2 : Int) (msg msg2 : String)
    (hh : s.handler = some h) (htn : s.transport_name = some tn)
    (hnc : s.state ≠ SESSION_STATE.CLOSED) :
    Session.close raises s code msg =
      ({ s with state := SESSION_STATE.CLOSED, close_reason := some (code, msg) },
       Effect.sendPack h.hid (proto.disconnect code msg) :: Effect.connOnClose ::
         ((if raises then [Effect.logMsg onCloseFailMsg] else []) ++
          [Effect.statsSessClosed tn, Effect.sessionClosed h.hid]),
       false) ∧
    Session.close raises2 (Session.close raises s code msg).1 code2 msg2 =
      ((Session.close raises s code msg).1, [], false) := by
  have hfirst : Session.close raises s code msg =
      ({ s with state := SESSION_STATE.CLOSED, close_reason := some (code, msg) },
       Effect.sendPack h.hid (proto.disconnect code msg) :: Effect.connOnClose ::
         ((if raises then [Effect.logMsg onCloseFailMsg] else []) ++
          [Effect.statsSessClosed tn, Effect.sessionClosed h.hid]),
       false) := by
    unfold Session.close BaseSession.close
    simp [hh, htn, hnc]
  refine ⟨hfirst, ?_⟩
  rw [hfirst]
  exact close_on_closed raises2 _ code2 msg2 rfl

/-- Witness for C6 at a concrete open attached session. -/
theorem close_idempotent_witness :
    Session.close false
        { Session.create wSettings sidW none 0 with
            handler := some wHandler, state := SESSION_STATE.OPEN,
            transport_name := some xhrName }
        3000 goAwayMsg =
      ({ { Session.create wSettings sidW none 0 with
             handler := some wHandler, state := SESSION_STATE.OPEN,
             transport_name := some xhrName } with
           state := SESSION_STATE.CLOSED, close_reason := some (3000, goAwayMsg) },
       Effect.sendPack wHandler.hid (proto.disconnect 3000 goAwayMsg) ::
         Effect.connOnClose ::
         ((if false then [Effect.logMsg onCloseFailMsg] else []) ++
          [Effect.statsSessClosed xhrName, Effect.sessionClosed wHandler.hid]),
       false) ∧
    Session.close true
        (Session.close false
          { Session.create wSettings sidW none 0 with
              handler := some wHandler, state := SESSION_STATE.OPEN,
              transport_name := some xhrName }
          3000 goAwayMsg).1 3000 goAwayMsg =
      ((Session.close false
          { Session.create wSettings sidW none 0 with
              handler := some wHandler, state := SESSION_STATE.OPEN,
              transport_name := some xhrName }
          3000 goAwayMsg).1, [], false) :=
  close_idempotent false true
    { Session.create wSettings sidW none 0 with
        handler := some wHandler, state := SESSION_STATE.OPEN,
        transport_name := some xhrName }
    wHandler xhrName 3000 3000 goAwayMsg goAwayMsg rfl rfl (by decide)

theorem string_append_ne_empty (a b : String) (ha : a ≠ "") : a ++ b ≠ "" := by
  intro h
  apply ha
  have hd : a.data ++ b.data = [] := by
    have := congrArg String.data h
    simpa using this
  rcases List.append_eq_nil.mp hd with ⟨h1, _⟩
  cases a
  simp_all

theorem pyJoin_ne_empty (q m : String) (hq : q ≠ "") : pyJoin q m ≠ "" := by
  unfold pyJoin
  rw [if_neg hq]
  exact string_append_ne_empty _ m (string_append_ne_empty q _ hq)

theorem joinC_cons_ne_empty (q : String) (fs : List String) (hq : q ≠ "") :
    joinC (q :: fs) ≠ "" := by
  cases fs with
  | nil => exact hq
  | cons r rs => exact string_append_ne_empty _ _ (string_append_ne_empty q _ hq)

theorem foldl_pyJoin_joinC (fs : List String) :
    ∀ q : String, q ≠ "" → List.foldl pyJoin q fs = joinC (q :: fs) := by
  induction fs with
  | nil => intro q _; rfl
  | cons m rest ih =>
    intro q hq
    show List.foldl pyJoin (pyJoin q m) rest = joinC (q :: m :: rest)
    rw [ih (pyJoin q m) (pyJoin_ne_empty q m hq)]
    unfold pyJoin
    rw [if_neg hq]
    cases rest with
    | nil => rfl
    | cons r rs =>
      show (q ++ "," ++ m) ++ "," ++ joinC (r :: rs) =
        q ++ "," ++ (m ++ "," ++ joinC (r :: rs))
      simp [String.append_assoc]

theorem sendAll_deferred_props (msgs : List String) :
    ∀ (s : Session) (acc : List Effect), s.immediate_flush = false →
      (List.foldl sendStep (s, acc) msgs).1 =
        { s with send_queue := List.foldl pyJoin s.send_queue msgs,
                 pending_flush := s.pending_flush || !msgs.isEmpty } ∧
      List.countP Effect.isSendPack (List.foldl sendStep (s, acc) msgs).2 =
        List.countP Effect.isSendPack acc ∧
      List.countP Effect.isScheduleFlush (List.foldl sendStep (s, acc) msgs).2 =
        List.countP Effect.isScheduleFlush acc +
          (if s.pending_flush || msgs.isEmpty then 0 else 1) := by
  induction msgs with
  | nil =>
    intro s acc _
    refine ⟨?_, rfl, by simp⟩
    simp
  | cons m rest ih =>
    intro s acc him
    have hstep : sendStep (s, acc) m =
        (if s.pending_flush then
          ({ s with send_queue := pyJoin s.send_queue m },
           acc ++ [Effect.statsPackSent 1])
        else
          ({ s with send_queue := pyJoin s.send_queue m, pending_flush := true },
           acc ++ [Effect.scheduleFlush, Effect.statsPackSent 1])) := by
      unfold sendStep Session.send_jsonified
      rcases s with ⟨sej, hand, sta, ci, cr, tn, sid, pr, ex, ed, sq, hb, hbi, imf, pf, vip⟩
      simp only at him
      subst him
      cases pf <;> simp [pyJoin]
    by_cases hpf : s.pending_flush = true
    · rw [List.foldl_cons, hstep, if_pos hpf]
      rcases ih { s with send_queue := pyJoin s.send_queue m }
          (acc ++ [Effect.statsPackSent 1]) him with ⟨ih1, ih2, ih3⟩
      refine ⟨?_, ?_, ?_⟩
      · rw [ih1]
        simp [hpf]
      · rw [ih2]
        simp [Effect.isSendPack]
      · rw [ih3]
        simp [hpf, Effect.isScheduleFlush]
    · have hpf' : s.pending_flush = false := by
        cases hx : s.pending_flush
        · rfl
        · exact absurd hx hpf
      rw [List.foldl_cons, hstep, if_neg hpf]
      rcases ih { s with send_queue := pyJoin s.send_queue m, pending_flush := true }
          (acc ++ [Effect.scheduleFlush, Effect.statsPackSent 1]) him with ⟨ih1, ih2, ih3⟩
      refine ⟨?_, ?_, ?_⟩
      · rw [ih1]
        simp [hpf']
      · rw [ih2]
        simp [Effect.isSendPack]
      · rw [ih3]
        simp [hpf', Effect.isScheduleFlush]

/-- C7 counterexample: with the empty string as first fragment, the burst
send then flush emits the frame a[x], not the comma-join a[,x] the claim
predicts for the fragments in call order: the source appends a comma only
when the queue is nonempty, so an empty first fragment is dropped from
the join. -/
theorem deferred_flush_empty_fragment_counterexample :
    (Session.flush (Session.sendAll s7w [emptyS, xS]).1).2 =
      [Effect.sendPack wHandler.hid frameAX] ∧
    frameAX ≠ aFrame (joinC [emptyS, xS]) := by
  decide

/-- C7 (amended): under the deferred-flush policy, with a handler attached,
an empty send queue and no flush pending, a burst of sends whose first
fragment is nonempty (JSON-encoded fragments always are) followed by the
scheduled flush emits exactly one outbound frame holding the fragments
comma-joined in call order, leaves the queue empty, schedules exactly one
flush (the first send of the burst), and the sends themselves emit no
frame. -/
theorem deferred_flush_coalesces (s : Session) (h : Handler) (f : String)
    (fs : List String)
    (him : s.immediate_flush = false) (hh : s.handler = some h)
    (hq : s.send_queue = "") (hp : s.pending_flush = false) (hf : f ≠ "") :
    (Session.flush (Session.sendAll s (f :: fs)).1).2 =
      [Effect.sendPack h.hid (aFrame (joinC (f :: fs)))] ∧
    (Session.flush (Session.sendAll s (f :: fs)).1).1.send_queue = "" ∧
    List.countP Effect.isScheduleFlush (Session.sendAll s (f :: fs)).2 = 1 ∧
    List.countP Effect.isSendPack (Session.sendAll s (f :: fs)).2 = 0 := by
  rcases sendAll_deferred_props (f :: fs) s [] him with ⟨h1, h2, h3⟩
  have hjoin : List.foldl pyJoin s.send_queue (f :: fs) = joinC (f :: fs) := by
    rw [hq]
    show List.foldl pyJoin (pyJoin emptyS f) fs = joinC (f :: fs)
    have : pyJoin emptyS f = f := by
      unfold pyJoin emptyS
      simp
    rw [this]
    cases fs with
    | nil => rfl
    | cons r rs => exact foldl_pyJoin_joinC (r :: rs) f hf
  have hone : Session.sendAll s (f :: fs) = List.foldl sendStep (s, []) (f :: fs) := rfl
  have hsess : (Session.sendAll s (f :: fs)).1 =
      { s with send_queue := joinC (f :: fs), pending_flush := true } := by
    rw [hone, h1, hjoin]
    simp [hp]
  have hne : joinC (f :: fs) ≠ "" := joinC_cons_ne_empty f fs hf
  refine ⟨?_, ?_, ?_, ?_⟩
  · rw [hsess]
    unfold Session.flush
    simp [hh, hne]
  · rw [hsess]
    unfold Session.flush
    simp [hh, hne]
  · rw [hone, h3]
    simp [hp]
  · rw [hone, h2]
    simp

/-- Witness for C7 (amended) on a concrete two-send burst. -/
theorem deferred_flush_coalesces_witness :
    (Session.flush (Session.sendAll s7w [helloS, worldS]).1).2 =
      [Effect.sendPack wHandler.hid (aFrame (joinC [helloS, worldS]))] ∧
    (Session.flush (Session.sendAll s7w [helloS, worldS]).1).1.send_queue = "" ∧
    List.countP Effect.isScheduleFlush (Session.sendAll s7w [helloS, worldS]).2 = 1 ∧
    List.countP Effect.isSendPack (Session.sendAll s7w [helloS, worldS]).2 = 0 :=
  deferred_flush_coalesces s7w wHandler helloS [worldS] rfl rfl rfl rfl (by decide)

theorem expireAux_preserves_absent {σ : Type} (I : EntryIface σ) (now : Int)
    (hs1 : ∀ (p : Option Int) (t : σ), I.sid (I.setPromoted p t) = I.sid t)
    (hs2 : ∀ (d : Int) (t : σ), I.sid (I.setExpiryDate d t) = I.sid t)
    (hs3 : ∀ (b : Bool) (t : σ), I.sid ((I.onDelete b t).1) = I.sid t) :
    ∀ (fuel : Nat) (c : SessionContainer σ) (id : String),
      (∀ t ∈ c._queue, I.sid t ≠ id) →
      mapLookup id ((SessionContainer.expireAux I now fuel c).1._items) =
        mapLookup id c._items ∧
      (∀ t ∈ (SessionContainer.expireAux I now fuel c).1._queue, I.sid t ≠ id) := by
  intro fuel
  induction fuel with
  | zero => intro c id hq; exact ⟨rfl, hq⟩
  | succ n ih =>
    intro c id hq
    unfold SessionContainer.expireAux
    cases hqe : c._queue with
    | nil =>
      refine ⟨rfl, ?_⟩
      rw [hqe]
      intro t ht
      exact absurd ht (List.not_mem_nil t)
    | cons top rest =>
      dsimp only
      have htop : I.sid top ≠ id := hq top (by rw [hqe]; exact List.mem_cons_self _ _)
      have hrest : ∀ t ∈ rest, I.sid t ≠ id := fun t ht =>
        hq t (by rw [hqe]; exact List.mem_cons_of_mem _ ht)
      by_cases hg : I.promoted top = none ∧ I.expiry_date top > now
      · rw [if_pos hg]
        exact ⟨rfl, hq⟩
      · rw [if_neg hg]
        have hsid1 : I.sid ((if (match I.promoted top with
            | some p => decide (p > now)
            | none => false) = true then (top, ([] : List Effect))
            else I.onDelete false (I.setPromoted none top)).1) = I.sid top := by
          split
          · rfl
          · rw [hs3, hs1]
        generalize hr1 : (if (match I.promoted top with
            | some p => decide (p > now)
            | none => false) = true then (top, ([] : List Effect))
            else I.onDelete false (I.setPromoted none top)) = r1
        rw [hr1] at hsid1
        split
        next p hp =>
          by_cases hpn : p > now
          · rw [if_pos hpn]
            have hsid2ne : I.sid (I.setPromoted none (I.setExpiryDate p r1.1)) ≠ id := by
              rw [hs1, hs2, hsid1]
              exact htop
            have hq1 : ∀ t ∈ heappush I rest (I.setPromoted none (I.setExpiryDate p r1.1)),
                I.sid t ≠ id := by
              intro t ht
              rcases mem_heappush I rest _ t ht with h1 | h2
              · exact hrest t h1
              · rw [h2]
                exact hsid2ne
            have hih := ih ⟨mapUpdIfPresent
                (I.sid (I.setPromoted none (I.setExpiryDate p r1.1)))
                (I.setPromoted none (I.setExpiryDate p r1.1)) c._items,
                heappush I rest (I.setPromoted none (I.setExpiryDate p r1.1))⟩ id hq1
            exact ⟨hih.1.trans
                (mapLookup_mapUpdIfPresent_ne id _ _ c._items hsid2ne), hih.2⟩
          · rw [if_neg hpn]
            have hsid1ne : I.sid r1.1 ≠ id := by
              rw [hsid1]
              exact htop
            cases hl : mapLookup (I.sid r1.1) c._items with
            | some w =>
              have hih := ih ⟨mapErase (I.sid r1.1) c._items, rest⟩ id hrest
              exact ⟨hih.1.trans (mapLookup_mapErase_ne id _ c._items hsid1ne), hih.2⟩
            | none =>
              exact ⟨rfl, hrest⟩
        next hp =>
          have hsid1ne : I.sid r1.1 ≠ id := by
            rw [hsid1]
            exact htop
          cases hl : mapLookup (I.sid r1.1) c._items with
          | some w =>
            have hih := ih ⟨mapErase (I.sid r1.1) c._items, rest⟩ id hrest
            exact ⟨hih.1.trans (mapLookup_mapErase_ne id _ c._items hsid1ne), hih.2⟩
          | none =>
            exact ⟨rfl, hrest⟩

theorem expire_preserves_absent {σ : Type} (I : EntryIface σ) (now : Int)
    (hs1 : ∀ (p : Option Int) (t : σ), I.sid (I.setPromoted p t) = I.sid t)
    (hs2 : ∀ (d : Int) (t : σ), I.sid (I.setExpiryDate d t) = I.sid t)
    (hs3 : ∀ (b : Bool) (t : σ), I.sid ((I.onDelete b t).1) = I.sid t)
    (c : SessionContainer σ) (id : String)
    (hq : ∀ t ∈ c._queue, I.sid t ≠ id) :
    mapLookup id ((SessionContainer.expire I now c).1._items) =
      mapLookup id c._items ∧
    (∀ t ∈ (SessionContainer.expire I now c).1._queue, I.sid t ≠ id) := by
  unfold SessionContainer.expire
  by_cases he : c._queue.isEmpty
  · rw [if_pos he]
    exact ⟨rfl, hq⟩
  · rw [if_neg he]
    exact expireAux_preserves_absent I now hs1 hs2 hs3 _ c id hq

/-- C8: a session with expiry = null is stored only in the lookup map by
add (the heap is untouched), and consequently any sequence of sweeps at any
times never removes it: it stays reachable via get. The hypothesis says no
heap entry carries its id, which holds for a fresh id. -/
theorem null_expiry_never_swept (c : SessionContainer Session) (s : Session)
    (raises : Bool) (nows : List Int)
    (he : s.expiry = none)
    (hq : ∀ t ∈ c._queue, t.session_id ≠ s.session_id) :
    (SessionContainer.add (sessionIface raises 0) c s)._queue = c._queue ∧
    SessionContainer.get
        (sessionSweeps raises nows (SessionContainer.add (sessionIface raises 0) c s))
        s.session_id = some s := by
  have hadd : SessionContainer.add (sessionIface raises 0) c s =
      { _items := mapInsert s.session_id s c._items, _queue := c._queue } := by
    unfold SessionContainer.add sessionIface
    simp [he]
  refine ⟨by rw [hadd], ?_⟩
  have H : ∀ (ns : List Int) (c0 : SessionContainer Session),
      mapLookup s.session_id c0._items = some s →
      (∀ t ∈ c0._queue, t.session_id ≠ s.session_id) →
      SessionContainer.get (sessionSweeps raises ns c0) s.session_id = some s := by
    intro ns
    induction ns with
    | nil =>
      intro c0 h1 _
      exact h1
    | cons now rest ih =>
      intro c0 h1 h2
      have hpres := expire_preserves_absent (sessionIface raises now) now
        (fun p t => rfl) (fun d t => rfl)
        (fun b t => session_on_delete_sid raises now b t)
        c0 s.session_id h2
      have hstep : sessionSweeps raises (now :: rest) c0 =
          sessionSweeps raises rest
            (SessionContainer.expire (sessionIface raises now) now c0).1 := rfl
      rw [hstep]
      exact ih _ (hpres.1.trans h1) hpres.2
  apply H
  · rw [hadd]
    exact mapLookup_mapInsert s.session_id s c._items
  · rw [hadd]
    exact hq

/-- Witness for C8: a concrete never-expiring session added to an empty
container survives two sweeps and is still reachable. -/
theorem null_expiry_never_swept_witness :
    (SessionContainer.add (sessionIface false 0)
        { _items := [], _queue := [] }
        (Session.create wSettings sidW none 0))._queue = [] ∧
    SessionContainer.get
        (sessionSweeps false [100, 200]
          (SessionContainer.add (sessionIface false 0)
            { _items := [], _queue := [] }
            (Session.create wSettings sidW none 0)))
        (Session.create wSettings sidW none 0).session_id =
      some (Session.create wSettings sidW none 0) :=
  null_expiry_never_swept { _items := [], _queue := [] }
    (Session.create wSettings sidW none 0) false [100, 200] rfl
    (by intro t ht; exact absurd ht (List.not_mem_nil t))

/-- C9: when the application on_close callback raises, close catches the
exception and still completes the transition: the resulting session is
exactly the one produced when the callback succeeds, with state CLOSED and
the close reason recorded. -/
theorem close_survives_on_close_exception (s : Session) (code : Int) (msg : String)
    (hnc : s.state ≠ SESSION_STATE.CLOSED) :
    (Session.close true s code msg).1 = (Session.close false s code msg).1 ∧
    (Session.close true s code msg).1.state = SESSION_STATE.CLOSED ∧
    (Session.close true s code msg).1.close_reason = some (code, msg) := by
  unfold Session.close BaseSession.close
  cases htn : s.transport_name <;> cases hh : s.handler <;> simp [hnc, htn, hh]

/-- Witness for C9 on a concrete open session. -/
theorem close_survives_on_close_exception_witness :
    (Session.close true
        { Session.create wSettings sidW none 0 with state := SESSION_STATE.OPEN }
        3000 goAwayMsg).1 =
      (Session.close false
        { Session.create wSettings sidW none 0 with state := SESSION_STATE.OPEN }
        3000 goAwayMsg).1 ∧
    (Session.close true
        { Session.create wSettings sidW none 0 with state := SESSION_STATE.OPEN }
        3000 goAwayMsg).1.state = SESSION_STATE.CLOSED ∧
    (Session.close true
        { Session.create wSettings sidW none 0 with state := SESSION_STATE.OPEN }
        3000 goAwayMsg).1.close_reason = some (3000, goAwayMsg) :=
  close_survives_on_close_exception
    { Session.create wSettings sidW none 0 with state := SESSION_STATE.OPEN }
    3000 goAwayMsg (by decide)

/-- C10: on a session whose transport_name attribute was never set (no
set_handler ever succeeded), close raises the undefined-attribute error at
the stats update (the error flag is true), but only after the finally block
has set the state to CLOSED and recorded the close reason; neither the
session-closed stats update nor the handler closure notification happen, so
the CLOSED transition is not atomic with the stats update. -/
theorem close_unattached_fails_after_transition (raises : Bool) (s : Session)
    (code : Int) (msg : String)
    (htn : s.transport_name = none) (hnc : s.state ≠ SESSION_STATE.CLOSED) :
    Session.close raises s code msg =
      ({ s with state := SESSION_STATE.CLOSED, close_reason := some (code, msg) },
       (match s.handler with
        | some h => [Effect.sendPack h.hid (proto.disconnect code msg)]
        | none => []) ++
         (Effect.connOnClose ::
           (if raises then [Effect.logMsg onCloseFailMsg] else [])),
       true) := by
  unfold Session.close BaseSession.close
  simp [hnc, htn]

/-- Witness for C10: a session created with an expiry and never attached. -/
theorem close_unattached_fails_after_transition_witness :
    Session.close false (Session.create wSettings sidW (some 5) 0) 3000 goAwayMsg =
      ({ Session.create wSettings sidW (some 5) 0 with
           state := SESSION_STATE.CLOSED, close_reason := some (3000, goAwayMsg) },
       (match (Session.create wSettings sidW (some 5) 0).handler with
        | some h => [Effect.sendPack h.hid (proto.disconnect 3000 goAwayMsg)]
        | none => []) ++
         (Effect.connOnClose ::
           (if false then [Effect.logMsg onCloseFailMsg] else [])),
       true) :=
  close_unattached_fails_after_transition false
    (Session.create wSettings sidW (some 5) 0) 3000 goAwayMsg rfl (by decide)

/-- Witness for C2 at the concrete active session. -/
theorem active_session_survives_sweep_witness :
    SessionContainer.expire (sessionIface false 20) 20
        { _items := [(wActive.session_id, wActive)], _queue := [wActive] } =
      ({ _items := [(wActive.session_id,
           { wActive with promoted := none, expiry_date := 20 + 5 })],
         _queue := [{ wActive with promoted := none, expiry_date := 20 + 5 }] },
       [], false) ∧
    SessionContainer.get
        (SessionContainer.expire (sessionIface false 20) 20
          { _items := [(wActive.session_id, wActive)], _queue := [wActive] }).1
        wActive.session_id =
      some { wActive with promoted := none, expiry_date := 20 + 5 } :=
  active_session_survives_sweep wActive wHandler 5 20 false rfl rfl (by decide)
    (by decide) rfl (by decide)
